import Mathlib

/-!
Verification of the MultiFinX ROUND_2 orchestration pipeline
(`src/ROUND_2/agents/agent_nodes.py` and `src/ROUND_2/agents/group_agents.py`).

The Python code is shallowly embedded: pure string manipulation is translated
to Lean string functions, exception-raising code is translated to `Except`
computations, and the external collaborators (the language model, the search
tool, `json.loads`, and the artifact store) are abstracted as an oracle
record `Collab`, since they live outside the repository.  The langgraph
execution engine is likewise external; graphs are modelled as node/edge lists
and executions as edge-respecting linearizations of the node set.
-/

namespace MultiFinX

/-! ## Python string primitives used by the source -/

/-- Python `pat in s` substring test, expressed through `splitOn`
(for a non-empty pattern, `pat` occurs in `s` iff splitting produces
more than one piece). -/
def pyContains (s pat : String) : Bool :=
  (s.splitOn pat).length > 1

/-- The single-quote character, `'`. -/
def squote : Char := Char.ofNat 39

/-- Strip every leading and trailing character belonging to `cs`
(Python `str.strip(chars)` on a character list). -/
def stripCharsList (cs : List Char) (l : List Char) : List Char :=
  ((l.dropWhile (fun c => c ∈ cs)).reverse.dropWhile (fun c => c ∈ cs)).reverse

/-- Python `s.strip(chars)`. -/
def pyStrip (s : String) (cs : List Char) : String :=
  String.mk (stripCharsList cs s.data)

/-! ## Python JSON values

`json.loads` itself is Python standard-library code, external to the
repository; the embedding abstracts it as a function
`String → Option PyJson` (`none` models a raised `JSONDecodeError`).
The repository's own logic (code-fence splitting, `dict.get`, the
line-scanning fallback) is translated below. -/

/-- A Python value as produced by `json.loads`. -/
inductive PyJson where
  | str : String → PyJson
  | num : Int → PyJson
  | bool : Bool → PyJson
  | null : PyJson
  | list : List PyJson → PyJson
  | dict : List (String × PyJson) → PyJson

/-- Python iteration over a value: lists yield their elements, strings yield
their characters (as one-character strings), dicts yield their keys, and
numbers/booleans/`None` raise `TypeError`. -/
def pyIter : PyJson → Except String (List PyJson)
  | .list l => .ok l
  | .str s => .ok (s.data.map (fun c => .str (String.mk [c])))
  | .dict kvs => .ok (kvs.map (fun kv => .str kv.1))
  | .num _ => .error "TypeError: not iterable"
  | .bool _ => .error "TypeError: not iterable"
  | .null => .error "TypeError: not iterable"

/-- Python `str(v)` for a JSON value; the `repr` of containers is modelled
loosely (it only ever flows into opaque prompt text). -/
def pyStr : PyJson → String
  | .str s => s
  | .num n => toString n
  | .bool b => if b then "True" else "False"
  | .null => "None"
  | .list _ => "[...]"
  | .dict _ => "{...}"

/-! ## Query extraction (`generate_search_queries`, lines 109-129) -/

/-- The JSON-portion extraction of `generate_search_queries`:
`content.split("```json")[1].split("```")[0].strip()` when a tagged fence is
present, the analogous untagged split when a bare fence is present, and the
raw content otherwise. -/
def extract_json_str (content : String) : String :=
  if pyContains content "```json" then
    ((((content.splitOn "```json").getD 1 "").splitOn "```").getD 0 "").trim
  else if pyContains content "```" then
    ((((content.splitOn "```").getD 1 "").splitOn "```").getD 0 "").trim
  else content

/-- Does a response line start (after whitespace) with a double or single
quote?  (`line.strip().startswith('"') or line.strip().startswith("'")`). -/
def isQuoteLine (line : String) : Bool :=
  line.trim.startsWith "\"" || line.trim.startsWith (String.mk [squote])

/-- `line.strip().strip('"\'').strip(',')`. -/
def cleanFallbackLine (line : String) : String :=
  pyStrip (pyStrip line.trim ['"', squote]) [',']

/-- The fallback extractor of `generate_search_queries`: scan the response
lines, keep the quote-initial ones (cleaned), and return the first five. -/
def fallbackQueries (content : String) : List String :=
  (((content.splitOn "\n").foldl
      (fun acc line => if isQuoteLine line then acc ++ [cleanFallbackLine line] else acc)
      [])).take 5

/-- The full extraction step of `generate_search_queries` applied to a model
response `content`: try `loads` on the extracted JSON portion and return
`queries_data.get("queries", [])`; on a parse failure, or when the parsed
value is not a dict (Python raises `AttributeError` on `.get`), fall back to
the line scanner. -/
def extractQueries (loads : String → Option PyJson) (content : String) : PyJson :=
  match loads (extract_json_str content) with
  | some (PyJson.dict kvs) => (List.lookup "queries" kvs).getD (PyJson.list [])
  | some _ => PyJson.list ((fallbackQueries content).map PyJson.str)
  | none => PyJson.list ((fallbackQueries content).map PyJson.str)

/-! ## External collaborators -/

/-- One search record, a Python dict with optional `title`/`link`/`snippet`
keys (`result.get(...)` supplies placeholders for missing keys). -/
structure SearchRecord where
  title : Option String
  link : Option String
  snippet : Option String

/-- The value stored under `<expert>_search` in `search_results`: either
`{"queries": ..., "results": ...}` or `{"error": ...}`. -/
inductive SearchEntry where
  | ok (queries : PyJson) (results : List SearchRecord)
  | err (msg : String)

/-- The inputs that determine each of the four language-model prompts built
by the source.  The literal prompt text is incidental glue (spec §1); only
which state values flow into each call site matters here. -/
inductive Prompt where
  | queryGen (system_prompt question expert_name : String)
  | analyze (system_prompt question compiled_results expert_name : String)
  | summarize (group_name question expert_analyses search_info : String)
  | synthesize (question group_summaries_text : String)

/-- The external collaborators of one run: model-construction
(`get_model`, which raises without a credential), the language model
(`llm.invoke`), the search tool (`simple_search`), `json.loads`, and the
three artifact-store writers.  `Except.error` models a raised exception. -/
structure Collab where
  getModel : Except String Unit
  llm : Prompt → Except String String
  search : PyJson → Except String (List SearchRecord)
  loads : String → Option PyJson
  saveExpert : String → String → String → Except String Unit
  saveSummary : String → String → String → Except String Unit
  saveFinal : String → String → Except String Unit

/-! ## Search execution and compilation (lines 131-156) -/

/-- `perform_searches`: run each query, concatenating results in query order;
a failing query is logged and skipped (never fatal). -/
def perform_searches (search : PyJson → Except String (List SearchRecord))
    (queries : List PyJson) : List SearchRecord :=
  queries.foldl (fun acc q =>
    match search q with
    | .ok rs => acc ++ rs
    | .error _ => acc) []

/-- `compile_search_results`: render the records into the indexed text
block. -/
def compile_search_results (results : List SearchRecord) : String :=
  results.enum.foldl (fun acc p =>
    acc ++ "Result " ++ toString (p.1 + 1) ++ ":\n"
        ++ "Title: " ++ p.2.title.getD "No title" ++ "\n"
        ++ "Link: " ++ p.2.link.getD "No link" ++ "\n"
        ++ "Snippet: " ++ p.2.snippet.getD "No snippet" ++ "\n\n")
    "SEARCH RESULTS:\n\n"

/-! ## The run state and state updates

The langgraph state is a record of named fields (`AgentState`,
lines 44-65).  A node returns a partial update; dict-valued fields are
merged by key union (Python `dict.update` semantics: existing keys are
overwritten in place, new keys are appended), string fields by
last-writer-wins.  Fields that a node does not mention are unchanged. -/

/-- The shared run state.  `none` in an `Option` field models an absent
dict key. -/
structure RunState where
  question : Option String := none
  question_1 : Option String := none
  question_2 : Option String := none
  question_3 : Option String := none
  question_4 : Option String := none
  question_5 : Option String := none
  group_1 : List (String × String) := []
  group_2 : List (String × String) := []
  group_3 : List (String × String) := []
  group_4 : List (String × String) := []
  group_5 : List (String × String) := []
  group_summaries : List (String × String) := []
  search_results : List (String × SearchEntry) := []
  final_report : Option String := none

/-- A node's partial state update.  Contributions to the five `group_<g>`
fields are keyed dynamically (the source writes `{group_key: {...}}` with a
computed key), so they travel as an association list. -/
structure Update where
  question_1 : Option String := none
  question_2 : Option String := none
  question_3 : Option String := none
  question_4 : Option String := none
  question_5 : Option String := none
  groups : List (String × List (String × String)) := []
  group_summaries : List (String × String) := []
  search_results : List (String × SearchEntry) := []
  final_report : Option String := none

/-- Insert one key into a string-keyed dict: overwrite in place if the key
exists, append otherwise (Python dict assignment). -/
def dictInsert {α : Type} (d : List (String × α)) (k : String) (v : α) :
    List (String × α) :=
  if (List.lookup k d).isSome then
    d.map (fun kv => if kv.1 = k then (k, v) else kv)
  else d ++ [(k, v)]

/-- Merge a new dict into an old one key by key (Python `dict.update`). -/
def dictMerge {α : Type} (old new : List (String × α)) : List (String × α) :=
  new.foldl (fun d kv => dictInsert d kv.1 kv.2) old

/-- Last-writer-wins merge for a singleton field. -/
def overwriteOpt (old new : Option String) : Option String :=
  match new with
  | some v => some v
  | none => old

/-- The group contribution of an update under a given group key. -/
def getGroupU (u : Update) (gk : String) : List (String × String) :=
  (List.lookup gk u.groups).getD []

/-- Apply a node's partial update to the run state. -/
def applyUpdate (s : RunState) (u : Update) : RunState :=
  { question := s.question
    question_1 := overwriteOpt s.question_1 u.question_1
    question_2 := overwriteOpt s.question_2 u.question_2
    question_3 := overwriteOpt s.question_3 u.question_3
    question_4 := overwriteOpt s.question_4 u.question_4
    question_5 := overwriteOpt s.question_5 u.question_5
    group_1 := dictMerge s.group_1 (getGroupU u "group_1")
    group_2 := dictMerge s.group_2 (getGroupU u "group_2")
    group_3 := dictMerge s.group_3 (getGroupU u "group_3")
    group_4 := dictMerge s.group_4 (getGroupU u "group_4")
    group_5 := dictMerge s.group_5 (getGroupU u "group_5")
    group_summaries := dictMerge s.group_summaries u.group_summaries
    search_results := dictMerge s.search_results u.search_results
    final_report := overwriteOpt s.final_report u.final_report }

/-- The keys of a string-keyed dict, in insertion order. -/
def keysOf {α : Type} (d : List (String × α)) : List String :=
  d.map Prod.fst

/-- Read one of the string-valued question fields by its dynamic key
(Python `state.get(key, default)` for the keys the source actually uses). -/
def stateLookup (s : RunState) (key : String) : Option String :=
  if key = "question_1" then s.question_1
  else if key = "question_2" then s.question_2
  else if key = "question_3" then s.question_3
  else if key = "question_4" then s.question_4
  else if key = "question_5" then s.question_5
  else if key = "question" then s.question
  else none

/-- Read a `group_<g>` field by its dynamic key (`state[group_key]`);
an unknown key reads as an absent/empty dict. -/
def getGroupS (s : RunState) (gk : String) : List (String × String) :=
  if gk = "group_1" then s.group_1
  else if gk = "group_2" then s.group_2
  else if gk = "group_3" then s.group_3
  else if gk = "group_4" then s.group_4
  else if gk = "group_5" then s.group_5
  else []

/-! ## The expert task (`create_expert_agent`, lines 202-251) -/

/-- The construction-time data of one expert node: persona prompt, unique
agent name, and owning group key.  The persona texts are imported from
`experts.group_<g>` (not part of the two orchestration files) and are opaque
strings here. -/
structure ExpertCfg where
  system_prompt : String
  agent_name : String
  group_key : String

/-- `question_key = f"question_{group_key[-1]}"` (line 205). -/
def questionKey (group_key : String) : String :=
  "question_".push group_key.back

/-- `state.get(question_key, "")` (line 210): the question an expert task
actually reads. -/
def expert_used_question (group_key : String) (s : RunState) : String :=
  (stateLookup s (questionKey group_key)).getD ""

/-- `generate_search_queries` (lines 77-129): one model call, then the
tolerant extraction.  A raise inside `llm.invoke` propagates; the extraction
itself never raises (its `try` has a total fallback). -/
def generate_search_queries (C : Collab) (system_prompt question expert_name : String) :
    Except String PyJson :=
  match C.llm (Prompt.queryGen system_prompt question expert_name) with
  | .error e => .error e
  | .ok content => .ok (extractQueries C.loads content)

/-- The ok-path return value of `expert_analysis` (lines 234-242):
`{group_key: {agent_name: analysis}, "search_results": {...}}`. -/
def expertOkUpdate (cfg : ExpertCfg) (queries : PyJson)
    (results : List SearchRecord) (analysis : String) : Update :=
  { groups := [(cfg.group_key, [(cfg.agent_name, analysis)])]
    search_results := [(cfg.agent_name ++ "_search", SearchEntry.ok queries results)] }

/-- The except-path return value of `expert_analysis` (lines 244-249). -/
def expertErrUpdate (cfg : ExpertCfg) (msg : String) : Update :=
  { groups := [(cfg.group_key, [(cfg.agent_name, "Error in analysis: " ++ msg)])]
    search_results := [(cfg.agent_name ++ "_search", SearchEntry.err msg)] }

/-- Steps 1-4 of the expert task (query generation, search, compilation,
analysis), preceded by `get_model()`, exactly in source order
(lines 216-228). -/
def expertSteps (C : Collab) (cfg : ExpertCfg) (question : String) :
    Except String (PyJson × List SearchRecord × String) :=
  match C.getModel with
  | .error e => .error e
  | .ok _ =>
    match generate_search_queries C cfg.system_prompt question cfg.agent_name with
    | .error e => .error e
    | .ok queries =>
      match pyIter queries with
      | .error e => .error e
      | .ok qlist =>
        let results := perform_searches C.search qlist
        let compiled := compile_search_results results
        match C.llm (Prompt.analyze cfg.system_prompt question compiled cfg.agent_name) with
        | .error e => .error e
        | .ok analysis => .ok (queries, results, analysis)

/-- The whole `try`-block body of `expert_analysis` (lines 209-242):
steps 1-4, then step 5 (`save_expert_analysis`, whose raise also lands in
the `except`), then the ok return value. -/
def expertCore (C : Collab) (cfg : ExpertCfg) (question : String) :
    Except String Update :=
  match expertSteps C cfg question with
  | .error e => .error e
  | .ok (queries, results, analysis) =>
    match C.saveExpert cfg.agent_name analysis question with
    | .error e => .error e
    | .ok _ => .ok (expertOkUpdate cfg queries results analysis)

/-- The `try` body evaluated on the run state. -/
def expertBody (C : Collab) (cfg : ExpertCfg) (s : RunState) : Except String Update :=
  expertCore C cfg (expert_used_question cfg.group_key s)

/-- `expert_analysis`: the full expert node, with the task-boundary
`except` converting any raise into the degraded update. -/
def expert_analysis (C : Collab) (cfg : ExpertCfg) (s : RunState) : Update :=
  match expertBody C cfg s with
  | .ok u => u
  | .error e => expertErrUpdate cfg e

/-! ## The group summarizer task (`create_group_summarizer`, lines 289-377) -/

/-- The construction-time data of one group summarizer: display name,
expert-name list, and group key. -/
structure GroupCfg where
  group_name : String
  expert_names : List String
  group_key : String

/-- Concatenate the group's expert analyses (lines 298-303). -/
def expertAnalysesText (s : RunState) (gk : String) : String :=
  (getGroupS s gk).foldl
    (fun acc kv => acc ++ "### Analysis from " ++ kv.1 ++ ":\n" ++ kv.2 ++ "\n\n") ""

/-- Render one expert's stored search-query value as prompt lines
(`for query in search_data["queries"]`); iterating a non-iterable raises. -/
def searchQueryLines (qs : PyJson) : Except String String :=
  match pyIter qs with
  | .error e => .error e
  | .ok ql => .ok (ql.foldl (fun acc q => acc ++ "- " ++ pyStr q ++ "\n") "")

/-- Build the search-information section (lines 306-314): only entries that
are present and carry a `queries` key contribute. -/
def searchInfoE (s : RunState) (names : List String) : Except String String :=
  names.foldlM (fun acc e =>
    match List.lookup (e ++ "_search") s.search_results with
    | some (SearchEntry.ok qs _) =>
      match searchQueryLines qs with
      | .error er => Except.error er
      | .ok lines =>
        Except.ok (acc ++ "\n### Search queries from " ++ e ++ ":\n" ++ lines)
    | _ => Except.ok acc) ""

/-- `group_name.split("(")[0].strip() if "(" in group_name else group_name`
(line 359). -/
def cleanGroupName (g : String) : String :=
  if pyContains g "(" then ((g.splitOn "(").getD 0 "").trim else g

/-- The whole `try`-block body of `summarize_group` (lines 296-369):
gather analyses and search info, read the group question, one model call,
persist, and return `{"group_summaries": {group_name: summary}}`. -/
def summBody (C : Collab) (cfg : GroupCfg) (s : RunState) : Except String Update :=
  let expert_analyses := expertAnalysesText s cfg.group_key
  match searchInfoE s cfg.expert_names with
  | .error e => .error e
  | .ok search_info =>
    let question := (stateLookup s (questionKey cfg.group_key)).getD "No question provided"
    match C.getModel with
    | .error e => .error e
    | .ok _ =>
      match C.llm (Prompt.summarize cfg.group_name question expert_analyses search_info) with
      | .error e => .error e
      | .ok summary =>
        match C.saveSummary (cleanGroupName cfg.group_name) question summary with
        | .error e => .error e
        | .ok _ => .ok { group_summaries := [(cfg.group_name, summary)] }

/-- `summarize_group`: the group summarizer node, with the task-boundary
`except` (lines 371-375). -/
def summarize_group (C : Collab) (cfg : GroupCfg) (s : RunState) : Update :=
  match summBody C cfg s with
  | .ok u => u
  | .error e =>
    { group_summaries := [(cfg.group_name, "Error in summary: " ++ e)] }

/-! ## The final synthesis task (`final_synthesizer`, lines 415-491) -/

/-- Concatenate all group summaries (lines 419-421). -/
def groupSummariesText (s : RunState) : String :=
  s.group_summaries.foldl
    (fun acc kv => acc ++ "### Summary from " ++ kv.1 ++ ":\n" ++ kv.2 ++ "\n\n") ""

/-- Truthiness of a question copy: present and non-empty. -/
def copyTruthy (o : Option String) : Bool :=
  match o with
  | some v => v ≠ ""
  | none => false

/-- The fallback loop of `final_synthesizer` (lines 426-431): scan
`question_1 .. question_5` and take the first present, non-empty copy. -/
def loopPick (s : RunState) : String :=
  if copyTruthy s.question_1 then s.question_1.getD ""
  else if copyTruthy s.question_2 then s.question_2.getD ""
  else if copyTruthy s.question_3 then s.question_3.getD ""
  else if copyTruthy s.question_4 then s.question_4.getD ""
  else if copyTruthy s.question_5 then s.question_5.getD ""
  else ""

/-- The question selection of `final_synthesizer` (lines 424-434):
the canonical field; when it is empty, the fallback loop's pick; when that
is still empty, the placeholder. -/
def finalQuestion (s : RunState) : String :=
  if (s.question.getD "") = "" then
    (if loopPick s = "" then "No question provided" else loopPick s)
  else s.question.getD ""

/-- The whole `try`-block body of `final_synthesizer` (lines 417-485):
format the group summaries, select the question, one model call, persist,
and write `final_report`. -/
def synthBody (C : Collab) (s : RunState) : Except String Update :=
  match C.getModel with
  | .error e => .error e
  | .ok _ =>
    match C.llm (Prompt.synthesize (finalQuestion s) (groupSummariesText s)) with
    | .error e => .error e
    | .ok report =>
      match C.saveFinal (finalQuestion s) report with
      | .error e => .error e
      | .ok _ => .ok { final_report := some report }

/-- `final_synthesizer`, with its task-boundary `except` (lines 487-491). -/
def final_synthesizer (C : Collab) (s : RunState) : Update :=
  match synthBody C s with
  | .ok u => u
  | .error e => { final_report := some ("Error in final synthesis: " ++ e) }

/-! ## Construction-time configuration (lines 253-287 and 380-413)

The persona constants (`MARKET_ANALYST`, ...) are imported from
`experts.group_<g>`, which is outside the two source files; they are opaque
prompt strings and are represented by their constant names. -/

def group1Experts : List ExpertCfg :=
  [ ⟨"MARKET_ANALYST", "market_analyst", "group_1"⟩,
    ⟨"TECHNICAL_ANALYST", "technical_analyst", "group_1"⟩,
    ⟨"FUNDAMENTAL_ANALYST", "fundamental_analyst", "group_1"⟩,
    ⟨"SENTIMENT_ANALYST", "sentiment_analyst", "group_1"⟩,
    ⟨"ECONOMIC_INDICATORS_EXPERT", "economic_indicators_expert", "group_1"⟩ ]

def group2Experts : List ExpertCfg :=
  [ ⟨"FINANCIAL_STATEMENT_ANALYST", "financial_statement_analyst", "group_2"⟩,
    ⟨"FINANCIAL_RATIO_EXPERT", "financial_ratio_expert", "group_2"⟩,
    ⟨"VALUATION_EXPERT", "valuation_expert", "group_2"⟩,
    ⟨"CASH_FLOW_ANALYST", "cash_flow_analyst", "group_2"⟩,
    ⟨"CAPITAL_STRUCTURE_EXPERT", "capital_structure_expert", "group_2"⟩ ]

def group3Experts : List ExpertCfg :=
  [ ⟨"BANKING_FINANCE_EXPERT", "banking_finance_expert", "group_3"⟩,
    ⟨"REAL_ESTATE_EXPERT", "real_estate_expert", "group_3"⟩,
    ⟨"CONSUMER_GOODS_EXPERT", "consumer_goods_expert", "group_3"⟩,
    ⟨"INDUSTRIAL_EXPERT", "industrial_expert", "group_3"⟩,
    ⟨"TECHNOLOGY_EXPERT", "technology_expert", "group_3"⟩ ]

def group4Experts : List ExpertCfg :=
  [ ⟨"GLOBAL_MARKETS_EXPERT", "global_markets_expert", "group_4"⟩,
    ⟨"GEOPOLITICAL_RISK_ANALYST", "geopolitical_risk_analyst", "group_4"⟩,
    ⟨"REGULATORY_FRAMEWORK_EXPERT", "regulatory_framework_expert", "group_4"⟩,
    ⟨"MONETARY_POLICY_EXPERT", "monetary_policy_expert", "group_4"⟩,
    ⟨"DEMOGRAPHIC_TRENDS_EXPERT", "demographic_trends_expert", "group_4"⟩ ]

def group5Experts : List ExpertCfg :=
  [ ⟨"GAME_THEORY_STRATEGIST", "game_theory_strategist", "group_5"⟩,
    ⟨"RISK_MANAGEMENT_EXPERT", "risk_management_expert", "group_5"⟩,
    ⟨"PORTFOLIO_OPTIMIZATION_EXPERT", "portfolio_optimization_expert", "group_5"⟩,
    ⟨"ASSET_ALLOCATION_STRATEGIST", "asset_allocation_strategist", "group_5"⟩,
    ⟨"INVESTMENT_PSYCHOLOGY_EXPERT", "investment_psychology_expert", "group_5"⟩ ]

def marketGroupCfg : GroupCfg :=
  ⟨"Phân tích Thị trường (Market Analysis)",
   ["market_analyst", "technical_analyst", "fundamental_analyst",
    "sentiment_analyst", "economic_indicators_expert"], "group_1"⟩

def financialGroupCfg : GroupCfg :=
  ⟨"Phân tích Tài chính (Financial Analysis)",
   ["financial_statement_analyst", "financial_ratio_expert", "valuation_expert",
    "cash_flow_analyst", "capital_structure_expert"], "group_2"⟩

def sectoralGroupCfg : GroupCfg :=
  ⟨"Phân tích Ngành (Sectoral Analysis)",
   ["banking_finance_expert", "real_estate_expert", "consumer_goods_expert",
    "industrial_expert", "technology_expert"], "group_3"⟩

def externalGroupCfg : GroupCfg :=
  ⟨"Yếu tố Bên ngoài (External Factors)",
   ["global_markets_expert", "geopolitical_risk_analyst", "regulatory_framework_expert",
    "monetary_policy_expert", "demographic_trends_expert"], "group_4"⟩

def strategyGroupCfg : GroupCfg :=
  ⟨"Lập chiến lược (Strategy)",
   ["game_theory_strategist", "risk_management_expert", "portfolio_optimization_expert",
    "asset_allocation_strategist", "investment_psychology_expert"], "group_5"⟩

/-- All 25 expert names in construction order. -/
def allExpertNames : List String :=
  (group1Experts ++ group2Experts ++ group3Experts ++ group4Experts ++ group5Experts).map
    ExpertCfg.agent_name

/-! ## The group graph (`create_expert_group_graph`, group_agents.py lines 45-88)

A langgraph `StateGraph` is modelled by its edge list over node names;
`START`/`END` are the engine's pseudo-nodes `__start__`/`__end__`. -/

/-- `f"expert_{i}"` (line 61). -/
def expertNodeName (i : Nat) : String := "expert_" ++ toString i

/-- The auto-generated expert node names for `n` expert callables. -/
def expertNodeNames (n : Nat) : List String :=
  (List.range n).map expertNodeName

/-- The edge list built by `create_expert_group_graph` for a group with `n`
expert callables: `START` to the first expert, each expert to the next, the
last expert to the summarizer (or `START` straight to the summarizer when
the list is empty), and the summarizer to `END` (lines 69-85). -/
def create_expert_group_graph (group_name : String) (n : Nat) : List (String × String) :=
  (match (expertNodeNames n).head? with
   | none => [("__start__", group_name ++ "_summarizer")]
   | some e0 =>
     [("__start__", e0)]
       ++ ((List.range (n - 1)).map (fun i => (expertNodeName i, expertNodeName (i + 1))))
       ++ [((expertNodeNames n).getLastD "", group_name ++ "_summarizer")])
  ++ [(group_name ++ "_summarizer", "__end__")]

/-- The node set of the group graph, `START`/`END` included. -/
def groupGraphNodes (group_name : String) (n : Nat) : List String :=
  "__start__" :: expertNodeNames n ++ [group_name ++ "_summarizer", "__end__"]

/-- Consecutive-pair edges of a node chain: the spec's
`expert₁ → expert₂ → … → summarizer` composition read literally. -/
def chainEdges : List String → List (String × String)
  | a :: b :: rest => (a, b) :: chainEdges (b :: rest)
  | _ => []

/-! ## Execution schedules

The graph-execution engine is external; its narrow contract (spec §2, §5)
is that a node runs only after all of its incoming edges have delivered.
An execution is therefore modelled as a linearization of the node set in
which every edge's source fires strictly before its target. -/

/-- A valid schedule: a permutation of the node set that respects every
edge. -/
def ValidSchedule {α : Type} [DecidableEq α] (nodes : List α) (edges : List (α × α))
    (sched : List α) : Prop :=
  sched.Perm nodes ∧ ∀ e ∈ edges, sched.indexOf e.1 < sched.indexOf e.2

/-! ## The main graph (`create_main_graph`, group_agents.py lines 136-202) -/

/-- The eight nodes added by `create_main_graph`. -/
inductive MainNode where
  | initializer
  | marketAnalysisGroup
  | financialAnalysisGroup
  | sectoralAnalysisGroup
  | externalFactorsGroup
  | join
  | strategyGroup
  | finalSynthesis
deriving DecidableEq

/-- The node list of the main graph, in `add_node` order. -/
def mainNodes : List MainNode :=
  [ .initializer, .marketAnalysisGroup, .financialAnalysisGroup,
    .sectoralAnalysisGroup, .externalFactorsGroup, .join,
    .strategyGroup, .finalSynthesis ]

/-- The internal edges of the main graph, in `add_edge` order
(lines 176-199); `START → initializer` and `final_synthesis → END` bind the
pseudo-nodes and are kept implicit. -/
def mainEdges : List (MainNode × MainNode) :=
  [ (.initializer, .marketAnalysisGroup),
    (.initializer, .financialAnalysisGroup),
    (.initializer, .sectoralAnalysisGroup),
    (.initializer, .externalFactorsGroup),
    (.marketAnalysisGroup, .join),
    (.financialAnalysisGroup, .join),
    (.sectoralAnalysisGroup, .join),
    (.externalFactorsGroup, .join),
    (.join, .strategyGroup),
    (.strategyGroup, .finalSynthesis) ]

/-- The initializer node (lines 147-156): copy the question into the five
per-group slots. -/
def initializerUpdate (s : RunState) : Update :=
  let q := s.question.getD ""
  { question_1 := some q, question_2 := some q, question_3 := some q,
    question_4 := some q, question_5 := some q }

/-- The join barrier node (lines 182-184): returns an empty update. -/
def join_node (_s : RunState) : Update := {}

/-- Run one compiled group graph: the experts in declared order, then the
summarizer, each applying its contribution to the state (the sequential
chain built by `create_expert_group_graph`). -/
def runGroup (C : Collab) (experts : List ExpertCfg) (cfg : GroupCfg)
    (s : RunState) : RunState :=
  let s' := experts.foldl (fun st e => applyUpdate st (expert_analysis C e st)) s
  applyUpdate s' (summarize_group C cfg s')

/-- The state transformation of each main-graph node. -/
def nodeSem (C : Collab) (n : MainNode) (s : RunState) : RunState :=
  match n with
  | .initializer => applyUpdate s (initializerUpdate s)
  | .marketAnalysisGroup => runGroup C group1Experts marketGroupCfg s
  | .financialAnalysisGroup => runGroup C group2Experts financialGroupCfg s
  | .sectoralAnalysisGroup => runGroup C group3Experts sectoralGroupCfg s
  | .externalFactorsGroup => runGroup C group4Experts externalGroupCfg s
  | .join => applyUpdate s (join_node s)
  | .strategyGroup => runGroup C group5Experts strategyGroupCfg s
  | .finalSynthesis => applyUpdate s (final_synthesizer C s)

/-- Run a schedule of main-graph nodes from an initial state. -/
def runSchedule (C : Collab) (sched : List MainNode) (s : RunState) : RunState :=
  sched.foldl (fun st n => nodeSem C n st) s

/-- The initial run state for an invocation `{"question": q}`. -/
def initState (q : String) : RunState :=
  { question := some q }

/-! ## Dictionary lemmas -/

theorem dictMerge_nil {α : Type} (d : List (String × α)) : dictMerge d [] = d := rfl

theorem dictMerge_cons {α : Type} (d : List (String × α)) (kv : String × α)
    (tl : List (String × α)) :
    dictMerge d (kv :: tl) = dictMerge (dictInsert d kv.1 kv.2) tl := rfl

theorem dictMerge_single {α : Type} (d : List (String × α)) (k : String) (v : α) :
    dictMerge d [(k, v)] = dictInsert d k v := rfl

theorem keysOf_dictInsert_of_mem {α : Type} (d : List (String × α)) (k : String) (v : α)
    (h : (List.lookup k d).isSome) : keysOf (dictInsert d k v) = keysOf d := by
  unfold dictInsert
  rw [if_pos h]
  unfold keysOf
  rw [List.map_map]
  apply List.map_congr_left
  intro kv _
  by_cases hk : kv.1 = k
  · simp [hk]
  · simp [hk]

theorem keysOf_dictInsert_of_fresh {α : Type} (d : List (String × α)) (k : String) (v : α)
    (h : List.lookup k d = none) : keysOf (dictInsert d k v) = keysOf d ++ [k] := by
  unfold dictInsert
  rw [if_neg (by simp [h])]
  simp [keysOf]

theorem mem_keysOf_dictInsert {α : Type} {d : List (String × α)} {a k : String} {v : α}
    (h : a ∈ keysOf d) : a ∈ keysOf (dictInsert d k v) := by
  by_cases hs : (List.lookup k d).isSome
  · rw [keysOf_dictInsert_of_mem d k v hs]; exact h
  · rw [keysOf_dictInsert_of_fresh d k v (Option.not_isSome_iff_eq_none.mp hs)]
    exact List.mem_append_left _ h

theorem self_mem_keysOf_dictInsert {α : Type} (d : List (String × α)) (k : String) (v : α) :
    k ∈ keysOf (dictInsert d k v) := by
  by_cases hs : (List.lookup k d).isSome
  · rw [keysOf_dictInsert_of_mem d k v hs]
    rcases List.lookup_isSome_iff.mp hs with ⟨p, hp, he⟩
    have hk : k = p.1 := by simpa using he
    exact hk ▸ List.mem_map_of_mem Prod.fst hp
  · rw [keysOf_dictInsert_of_fresh d k v (Option.not_isSome_iff_eq_none.mp hs)]
    simp

theorem mem_keysOf_dictMerge {α : Type} {a : String} (new : List (String × α))
    (d : List (String × α)) (h : a ∈ keysOf d) : a ∈ keysOf (dictMerge d new) := by
  induction new generalizing d with
  | nil => exact h
  | cons kv tl ih => exact ih _ (mem_keysOf_dictInsert h)

/-! ## Claim theorems: query extraction (C5, C6, C9) -/

theorem foldl_quoteLines (p : String → Bool) (f : String → String) :
    ∀ (lines : List String) (acc : List String),
      lines.foldl (fun acc line => if p line then acc ++ [f line] else acc) acc
        = acc ++ (lines.filter p).map f := by
  intro lines
  induction lines with
  | nil => intro acc; simp
  | cons hd tl ih =>
    intro acc
    by_cases h : p hd <;> simp [List.filter_cons, h, ih]

theorem fallbackQueries_eq (content : String) :
    fallbackQueries content
      = ((((content.splitOn "\n").filter isQuoteLine).map cleanFallbackLine)).take 5 := by
  unfold fallbackQueries
  rw [foldl_quoteLines isQuoteLine cleanFallbackLine (content.splitOn "\n") []]
  rfl

/-- Claim C5: for every model response whose content fails JSON extraction,
`generate_search_queries` falls back to scanning the response's lines, keeps
exactly those lines that begin with a single or double quote (stripped of
quotes and commas), and returns at most 5 of them; if no such line exists it
returns the empty list and does not raise (the extraction is total). -/
theorem c5_fallback_extraction (loads : String → Option PyJson) (content : String)
    (hfail : loads (extract_json_str content) = none) :
    ∃ l : List String,
      extractQueries loads content = PyJson.list (l.map PyJson.str)
      ∧ l = (((content.splitOn "\n").filter isQuoteLine).map cleanFallbackLine).take 5
      ∧ l.length ≤ 5
      ∧ (((content.splitOn "\n").filter isQuoteLine) = [] → l = []) := by
  refine ⟨fallbackQueries content, ?_, fallbackQueries_eq content, ?_, ?_⟩
  · unfold extractQueries
    rw [hfail]
  · rw [fallbackQueries_eq content]
    exact List.length_take_le 5 _
  · intro h
    rw [fallbackQueries_eq content, h]
    rfl

/-- Witness for C5 at a concrete unparseable response: six quote-initial
lines are cut to five cleaned queries. -/
theorem c5_fallback_extraction_witness :
    (fun _ : String => (none : Option PyJson)) (extract_json_str "x\n\"q1\",\n\"q2\"\n'q3'\n\"q4\"\n\"q5\"\n\"q6\"") = none
    ∧ ∃ l : List String,
        extractQueries (fun _ => none) "x\n\"q1\",\n\"q2\"\n'q3'\n\"q4\"\n\"q5\"\n\"q6\""
            = PyJson.list (l.map PyJson.str)
        ∧ l = (((("x\n\"q1\",\n\"q2\"\n'q3'\n\"q4\"\n\"q5\"\n\"q6\"".splitOn "\n").filter
              isQuoteLine).map cleanFallbackLine)).take 5
        ∧ l.length ≤ 5
        ∧ ((("x\n\"q1\",\n\"q2\"\n'q3'\n\"q4\"\n\"q5\"\n\"q6\"".splitOn "\n").filter
              isQuoteLine) = [] → l = []) :=
  ⟨rfl, c5_fallback_extraction (fun _ => none)
    "x\n\"q1\",\n\"q2\"\n'q3'\n\"q4\"\n\"q5\"\n\"q6\"" rfl⟩

/-- Claim C6: query extraction is deterministic — on a fixed response
content carrying a well-formed `queries` JSON object (fenced or unfenced),
two runs of the extraction step yield the identical parsed query list. -/
theorem c6_extraction_deterministic (loads : String → Option PyJson) (content : String)
    (kvs : List (String × PyJson)) (qs : List PyJson)
    (hparse : loads (extract_json_str content) = some (PyJson.dict kvs))
    (hq : List.lookup "queries" kvs = some (PyJson.list qs)) :
    extractQueries loads content = extractQueries loads content
    ∧ extractQueries loads content = PyJson.list qs := by
  refine ⟨rfl, ?_⟩
  unfold extractQueries
  rw [hparse]
  show (List.lookup "queries" kvs).getD (PyJson.list []) = PyJson.list qs
  rw [hq]
  rfl

/-- Witness for C6 at a concrete fenced response (the parser oracle returns
the well-formed queries object for it). -/
theorem c6_extraction_deterministic_witness :
    (fun _ : String => some (PyJson.dict [("queries", PyJson.list [PyJson.str "a", PyJson.str "b"])]))
        (extract_json_str "```json\n\x7b\"queries\": [\"a\", \"b\"]\x7d\n```")
      = some (PyJson.dict [("queries", PyJson.list [PyJson.str "a", PyJson.str "b"])])
    ∧ List.lookup "queries" [("queries", PyJson.list [PyJson.str "a", PyJson.str "b"])]
      = some (PyJson.list [PyJson.str "a", PyJson.str "b"])
    ∧ extractQueries
        (fun _ => some (PyJson.dict [("queries", PyJson.list [PyJson.str "a", PyJson.str "b"])]))
        "```json\n\x7b\"queries\": [\"a\", \"b\"]\x7d\n```"
      = PyJson.list [PyJson.str "a", PyJson.str "b"] :=
  ⟨rfl, rfl,
    (c6_extraction_deterministic _ "```json\n\x7b\"queries\": [\"a\", \"b\"]\x7d\n```"
      [("queries", PyJson.list [PyJson.str "a", PyJson.str "b"])]
      [PyJson.str "a", PyJson.str "b"] rfl rfl).2⟩

/-- Claim C9: when the JSON parse succeeds on a dict, the returned value is
exactly the value of the `queries` key — no length cap — and a parsed dict
without a `queries` key yields the empty list, not the fallback. -/
theorem c9_parsed_queries_uncapped (loads : String → Option PyJson) (content : String)
    (kvs : List (String × PyJson))
    (hparse : loads (extract_json_str content) = some (PyJson.dict kvs)) :
    (∀ v : PyJson, List.lookup "queries" kvs = some v → extractQueries loads content = v)
    ∧ (List.lookup "queries" kvs = none → extractQueries loads content = PyJson.list []) := by
  constructor
  · intro v hv
    unfold extractQueries
    rw [hparse]
    show (List.lookup "queries" kvs).getD (PyJson.list []) = v
    rw [hv]
    rfl
  · intro hn
    unfold extractQueries
    rw [hparse]
    show (List.lookup "queries" kvs).getD (PyJson.list []) = PyJson.list []
    rw [hn]
    rfl

/-- Witness for C9: a seven-element query list is returned whole (beyond the
fallback's cap of five), and a dict without the key yields `[]`. -/
theorem c9_parsed_queries_uncapped_witness :
    (fun _ : String =>
        some (PyJson.dict [("queries", PyJson.list
          [PyJson.str "1", PyJson.str "2", PyJson.str "3", PyJson.str "4",
           PyJson.str "5", PyJson.str "6", PyJson.str "7"])])) (extract_json_str "seven")
      = some (PyJson.dict [("queries", PyJson.list
          [PyJson.str "1", PyJson.str "2", PyJson.str "3", PyJson.str "4",
           PyJson.str "5", PyJson.str "6", PyJson.str "7"])])
    ∧ extractQueries
        (fun _ =>
          some (PyJson.dict [("queries", PyJson.list
            [PyJson.str "1", PyJson.str "2", PyJson.str "3", PyJson.str "4",
             PyJson.str "5", PyJson.str "6", PyJson.str "7"])])) "seven"
      = PyJson.list
          [PyJson.str "1", PyJson.str "2", PyJson.str "3", PyJson.str "4",
           PyJson.str "5", PyJson.str "6", PyJson.str "7"]
    ∧ extractQueries (fun _ => some (PyJson.dict [("other", PyJson.null)])) "missing"
      = PyJson.list [] :=
  ⟨rfl,
    (c9_parsed_queries_uncapped _ "seven"
      [("queries", PyJson.list
        [PyJson.str "1", PyJson.str "2", PyJson.str "3", PyJson.str "4",
         PyJson.str "5", PyJson.str "6", PyJson.str "7"])] rfl).1 _ rfl,
    (c9_parsed_queries_uncapped _ "missing" [("other", PyJson.null)] rfl).2 rfl⟩

/-! ## Shape lemmas for the task bodies -/

theorem expertCore_ok_shape {C : Collab} {cfg : ExpertCfg} {q : String} {u : Update}
    (h : expertCore C cfg q = .ok u) :
    ∃ qs rs an, u = expertOkUpdate cfg qs rs an := by
  unfold expertCore at h
  split at h
  · simp at h
  · split at h
    · simp at h
    · simp only [Except.ok.injEq] at h
      exact ⟨_, _, _, h.symm⟩

theorem expertBody_ok_shape {C : Collab} {cfg : ExpertCfg} {s : RunState} {u : Update}
    (h : expertBody C cfg s = .ok u) :
    ∃ qs rs an, u = expertOkUpdate cfg qs rs an := by
  unfold expertBody at h
  exact expertCore_ok_shape h

/-- The group entry of the expert task's return value, on both paths:
always the singleton `{agent_name: text}` under the expert's group key. -/
theorem expert_entry_exists (C : Collab) (cfg : ExpertCfg) (s : RunState) :
    ∃ t, getGroupU (expert_analysis C cfg s) cfg.group_key = [(cfg.agent_name, t)] := by
  unfold expert_analysis
  cases hb : expertBody C cfg s with
  | ok u =>
    obtain ⟨qs, rs, an, rfl⟩ := expertBody_ok_shape hb
    exact ⟨an, by unfold expertOkUpdate getGroupU; simp⟩
  | error e =>
    exact ⟨"Error in analysis: " ++ e, by unfold expertErrUpdate getGroupU; simp⟩

theorem summBody_ok_shape {C : Collab} {cfg : GroupCfg} {s : RunState} {u : Update}
    (h : summBody C cfg s = .ok u) :
    ∃ t, u = { group_summaries := [(cfg.group_name, t)] } := by
  unfold summBody at h
  dsimp only at h
  split at h
  · simp at h
  · split at h
    · simp at h
    · split at h
      · simp at h
      · split at h
        · simp at h
        · simp only [Except.ok.injEq] at h
          exact ⟨_, h.symm⟩

/-- The summary entry of the group summarizer's return value, on both
paths: always the singleton `{group_name: text}`. -/
theorem summ_entry_exists (C : Collab) (cfg : GroupCfg) (s : RunState) :
    ∃ t, (summarize_group C cfg s).group_summaries = [(cfg.group_name, t)] := by
  unfold summarize_group
  cases hb : summBody C cfg s with
  | ok u =>
    obtain ⟨t, rfl⟩ := summBody_ok_shape hb
    exact ⟨t, rfl⟩
  | error e => exact ⟨"Error in summary: " ++ e, rfl⟩

/-! ## Claim C1: the task-boundary error policy -/

/-- Claim C1: any exception raised inside an expert task body or a group
summarizer body is caught at the task boundary and never propagates: the
expert task returns the group entry `{name: "Error in analysis: <message>"}`
plus the search entry `{"error": <message>}`, the summarizer returns
`{display name: "Error in summary: <message>"}`, and on every path both
tasks return a well-typed entry for their key. -/
theorem c1_error_boundary (C : Collab) (ecfg : ExpertCfg) (gcfg : GroupCfg) (s : RunState) :
    (∀ msg, expertBody C ecfg s = .error msg →
        expert_analysis C ecfg s = expertErrUpdate ecfg msg
        ∧ getGroupU (expert_analysis C ecfg s) ecfg.group_key
            = [(ecfg.agent_name, "Error in analysis: " ++ msg)]
        ∧ List.lookup (ecfg.agent_name ++ "_search") (expert_analysis C ecfg s).search_results
            = some (SearchEntry.err msg))
    ∧ (∃ t, getGroupU (expert_analysis C ecfg s) ecfg.group_key = [(ecfg.agent_name, t)])
    ∧ (∀ msg, summBody C gcfg s = .error msg →
        summarize_group C gcfg s
          = { group_summaries := [(gcfg.group_name, "Error in summary: " ++ msg)] })
    ∧ (∃ t, (summarize_group C gcfg s).group_summaries = [(gcfg.group_name, t)]) := by
  refine ⟨?_, expert_entry_exists C ecfg s, ?_, summ_entry_exists C gcfg s⟩
  · intro msg h
    have he : expert_analysis C ecfg s = expertErrUpdate ecfg msg := by
      unfold expert_analysis
      rw [h]
    refine ⟨he, ?_, ?_⟩
    · rw [he]; unfold expertErrUpdate getGroupU; simp
    · rw [he]; unfold expertErrUpdate; simp
  · intro msg h
    unfold summarize_group
    rw [h]

/-- A collaborator with no usable model credential: `get_model` raises. -/
def noKeyCollab : Collab :=
  { getModel := .error "No API key found for OpenAI",
    llm := fun _ => .ok "x", search := fun _ => .ok [], loads := fun _ => none,
    saveExpert := fun _ _ _ => .ok (), saveSummary := fun _ _ _ => .ok (),
    saveFinal := fun _ _ => .ok () }

/-- Witness for C1: the missing-credential collaborator forces the error
path of the expert task. -/
theorem c1_error_boundary_witness :
    (expertBody noKeyCollab ⟨"MARKET_ANALYST", "market_analyst", "group_1"⟩ (initState "q")
      = .error "No API key found for OpenAI")
    ∧ expert_analysis noKeyCollab ⟨"MARKET_ANALYST", "market_analyst", "group_1"⟩ (initState "q")
      = expertErrUpdate ⟨"MARKET_ANALYST", "market_analyst", "group_1"⟩
          "No API key found for OpenAI" := by
  refine ⟨rfl, ?_⟩
  exact ((c1_error_boundary noKeyCollab ⟨"MARKET_ANALYST", "market_analyst", "group_1"⟩
    marketGroupCfg (initState "q")).1 "No API key found for OpenAI" rfl).1

/-! ## Claim C10: experts read only their group's question copy -/

theorem stateLookup_question_update (s : RunState) (q0 : Option String) (key : String)
    (h : key ≠ "question") :
    stateLookup { s with question := q0 } key = stateLookup s key := by
  unfold stateLookup
  split_ifs <;> rfl

theorem questionKey_ne_question (gk : String) : questionKey gk ≠ "question" := by
  intro h
  have hl := congrArg String.length h
  rw [questionKey, String.length_push] at hl
  have h9 : "question_".length = 9 := rfl
  have h8 : "question".length = 8 := rfl
  rw [h9, h8] at hl
  omega

theorem expert_used_question_ignores_question (gk : String) (s : RunState)
    (q0 : Option String) :
    expert_used_question gk { s with question := q0 } = expert_used_question gk s := by
  unfold expert_used_question
  rw [stateLookup_question_update s q0 _ (questionKey_ne_question gk)]

/-- Claim C10: every expert task reads its question exclusively from the
group-specific copy `question_<g>` named by the last character of its group
key — never from the canonical `question` field — and an absent copy reads
as the empty string while the task still returns its group entry. -/
theorem c10_expert_question_source (C : Collab) (cfg : ExpertCfg) (s : RunState) :
    (∀ q0 : Option String,
        expert_analysis C cfg { s with question := q0 } = expert_analysis C cfg s)
    ∧ (stateLookup s (questionKey cfg.group_key) = none →
        expert_used_question cfg.group_key s = "")
    ∧ (questionKey "group_1" = "question_1" ∧ questionKey "group_2" = "question_2"
       ∧ questionKey "group_3" = "question_3" ∧ questionKey "group_4" = "question_4"
       ∧ questionKey "group_5" = "question_5")
    ∧ (∃ t, getGroupU (expert_analysis C cfg s) cfg.group_key = [(cfg.agent_name, t)]) := by
  refine ⟨?_, ?_, ⟨by decide, by decide, by decide, by decide, by decide⟩,
    expert_entry_exists C cfg s⟩
  · intro q0
    unfold expert_analysis expertBody
    rw [expert_used_question_ignores_question cfg.group_key s q0]
  · intro h
    unfold expert_used_question
    rw [h]
    rfl

/-- Witness for C10: on a state whose `question_1` copy is absent, the
market-analyst expert uses the empty question, ignores the canonical
`question` field, and still returns its entry. -/
theorem c10_expert_question_source_witness :
    (stateLookup (initState "q") (questionKey "group_1") = none
      → expert_used_question "group_1" (initState "q") = "")
    ∧ expert_used_question "group_1" (initState "q") = ""
    ∧ expert_analysis noKeyCollab ⟨"MARKET_ANALYST", "market_analyst", "group_1"⟩
        { initState "q" with question := some "other" }
      = expert_analysis noKeyCollab ⟨"MARKET_ANALYST", "market_analyst", "group_1"⟩
        (initState "q") := by
  refine ⟨?_, ?_, ?_⟩
  · exact (c10_expert_question_source noKeyCollab
      ⟨"MARKET_ANALYST", "market_analyst", "group_1"⟩ (initState "q")).2.1
  · exact (c10_expert_question_source noKeyCollab
      ⟨"MARKET_ANALYST", "market_analyst", "group_1"⟩ (initState "q")).2.1 (by decide)
  · exact (c10_expert_question_source noKeyCollab
      ⟨"MARKET_ANALYST", "market_analyst", "group_1"⟩ (initState "q")).1 (some "other")

/-! ## Claim C4 (corrected): persistence failures are caught, and do change
the return value -/

/-- A collaborator whose artifact store fails: everything succeeds except
`save_expert_analysis`, which raises `disk full`. -/
def diskFullCollab : Collab :=
  { getModel := .ok (),
    llm := fun p =>
      match p with
      | .queryGen _ _ _ => .ok "no json here"
      | .analyze _ _ _ _ => .ok "THE ANALYSIS"
      | _ => .ok "x",
    search := fun _ => .ok [],
    loads := fun _ => some (PyJson.dict [("queries", PyJson.list [])]),
    saveExpert := fun _ _ _ => .error "disk full",
    saveSummary := fun _ _ _ => .ok (),
    saveFinal := fun _ _ => .ok () }

/-- Counterexample to C4 as stated: with `diskFullCollab`, steps 1-4 of the
market-analyst expert succeed and compute `"THE ANALYSIS"`, yet the task
returns the group entry `"Error in analysis: disk full"` — the persistence
failure does change the return value. -/
theorem c4_counterexample :
    expertSteps diskFullCollab ⟨"MARKET_ANALYST", "market_analyst", "group_1"⟩
        (expert_used_question "group_1" (initState "q"))
      = .ok (PyJson.list [], [], "THE ANALYSIS")
    ∧ getGroupU (expert_analysis diskFullCollab
          ⟨"MARKET_ANALYST", "market_analyst", "group_1"⟩ (initState "q")) "group_1"
      = [("market_analyst", "Error in analysis: disk full")]
    ∧ ("Error in analysis: disk full" : String) ≠ "THE ANALYSIS" := by
  refine ⟨rfl, rfl, by decide⟩

/-- Claim C4 as amended: when steps 1-4 of an expert task succeed but the
persistence step raises, the raise is caught by the same task-boundary
handler and the task returns the degraded `"Error in analysis: <message>"`
entry instead of the computed analysis — persistence is inside the guarded
region, not best-effort. -/
theorem c4_persistence_failure_caught (C : Collab) (cfg : ExpertCfg) (s : RunState)
    (qs : PyJson) (rs : List SearchRecord) (an msg : String)
    (hsteps : expertSteps C cfg (expert_used_question cfg.group_key s) = .ok (qs, rs, an))
    (hsave : C.saveExpert cfg.agent_name an (expert_used_question cfg.group_key s)
      = .error msg) :
    expert_analysis C cfg s = expertErrUpdate cfg msg := by
  have hb : expertBody C cfg s = .error msg := by
    unfold expertBody expertCore
    rw [hsteps]
    show (match C.saveExpert cfg.agent_name an (expert_used_question cfg.group_key s) with
          | Except.error e => Except.error e
          | Except.ok _ => Except.ok (expertOkUpdate cfg qs rs an)) = Except.error msg
    rw [hsave]
  unfold expert_analysis
  rw [hb]

/-- Witness for the amended C4 at the concrete `diskFullCollab` run. -/
theorem c4_persistence_failure_caught_witness :
    expertSteps diskFullCollab ⟨"MARKET_ANALYST", "market_analyst", "group_1"⟩
        (expert_used_question "group_1" (initState "q"))
      = .ok (PyJson.list [], [], "THE ANALYSIS")
    ∧ diskFullCollab.saveExpert "market_analyst" "THE ANALYSIS"
        (expert_used_question "group_1" (initState "q")) = .error "disk full"
    ∧ expert_analysis diskFullCollab ⟨"MARKET_ANALYST", "market_analyst", "group_1"⟩
        (initState "q")
      = expertErrUpdate ⟨"MARKET_ANALYST", "market_analyst", "group_1"⟩ "disk full" :=
  ⟨rfl, rfl,
    c4_persistence_failure_caught diskFullCollab
      ⟨"MARKET_ANALYST", "market_analyst", "group_1"⟩ (initState "q")
      (PyJson.list []) [] "THE ANALYSIS" "disk full" rfl rfl⟩

/-! ## Claim C8: the final synthesis task -/

/-- List form of the fallback loop over the five question copies. -/
def loopPickL : List (Option String) → String
  | [] => ""
  | o :: tl => if copyTruthy o then o.getD "" else loopPickL tl

theorem loopPick_eq_loopPickL (s : RunState) :
    loopPick s = loopPickL
      [s.question_1, s.question_2, s.question_3, s.question_4, s.question_5] := rfl

theorem loopPickL_spec (d : String) :
    ∀ l : List (Option String),
      (if loopPickL l = "" then d else loopPickL l)
        = ((l.findSome? (fun o => o.bind (fun v => if v = "" then none else some v))).getD d) := by
  intro l
  induction l with
  | nil => simp [loopPickL]
  | cons o tl ih =>
    cases o with
    | none => simpa [loopPickL, copyTruthy] using ih
    | some v =>
      by_cases hv : v = ""
      · subst hv
        simpa [loopPickL, copyTruthy] using ih
      · simp [loopPickL, copyTruthy, hv]

/-- Claim C8: the final synthesis task reads the question from the canonical
`question` field; when that field is empty it falls back to the first
populated `question_<g>` copy, scanning `question_1` through `question_5`;
it reads `group_summaries` and, after one model call, writes the result to
`final_report`. -/
theorem c8_final_synthesis (C : Collab) (s : RunState) :
    ((s.question.getD "") ≠ "" → finalQuestion s = s.question.getD "")
    ∧ ((s.question.getD "") = "" →
        finalQuestion s
          = (([s.question_1, s.question_2, s.question_3, s.question_4,
               s.question_5].findSome?
              (fun o => o.bind (fun v => if v = "" then none else some v))).getD
              "No question provided"))
    ∧ (∀ rpt, C.getModel = .ok () →
        C.llm (Prompt.synthesize (finalQuestion s) (groupSummariesText s)) = .ok rpt →
        C.saveFinal (finalQuestion s) rpt = .ok () →
        final_synthesizer C s = { final_report := some rpt }) := by
  refine ⟨?_, ?_, ?_⟩
  · intro h
    unfold finalQuestion
    rw [if_neg h]
  · intro h
    unfold finalQuestion
    rw [h, if_pos rfl, loopPick_eq_loopPickL, loopPickL_spec]
  · intro rpt hm hl hsv
    have hb : synthBody C s = .ok { final_report := some rpt } := by
      unfold synthBody
      rw [hm]
      show (match C.llm (Prompt.synthesize (finalQuestion s) (groupSummariesText s)) with
            | Except.error e => Except.error e
            | Except.ok report =>
              match C.saveFinal (finalQuestion s) report with
              | Except.error e => Except.error e
              | Except.ok _ => Except.ok ({ final_report := some report } : Update))
        = Except.ok ({ final_report := some rpt } : Update)
      rw [hl]
      show (match C.saveFinal (finalQuestion s) rpt with
            | Except.error e => Except.error e
            | Except.ok _ => Except.ok ({ final_report := some rpt } : Update))
        = Except.ok ({ final_report := some rpt } : Update)
      rw [hsv]
    unfold final_synthesizer
    rw [hb]

/-- A collaborator for the C8 witness: the model returns a fixed report. -/
def reportCollab : Collab :=
  { getModel := .ok (), llm := fun _ => .ok "REPORT", search := fun _ => .ok [],
    loads := fun _ => none, saveExpert := fun _ _ _ => .ok (),
    saveSummary := fun _ _ _ => .ok (), saveFinal := fun _ _ => .ok () }

/-- Witness for C8: with an empty canonical question and only `question_2`
populated, the synthesizer falls back to the copy and writes the model's
report. -/
theorem c8_final_synthesis_witness :
    finalQuestion { question_2 := some "Q2" } = "Q2"
    ∧ final_synthesizer reportCollab { question_2 := some "Q2" }
      = { final_report := some "REPORT" } := by
  constructor
  · rw [(c8_final_synthesis reportCollab { question_2 := some "Q2" }).2.1 rfl]
    rfl
  · exact (c8_final_synthesis reportCollab { question_2 := some "Q2" }).2.2 "REPORT" rfl rfl rfl

/-! ## Claim C7: the group graph is a sequential chain -/

theorem chainEdges_cons₂ (a b : String) (rest : List String) :
    chainEdges (a :: b :: rest) = (a, b) :: chainEdges (b :: rest) := rfl

theorem map_range_succ_head {α : Type} (f : Nat → α) (m : Nat) :
    (List.range (m + 1)).map f = f 0 :: (List.range m).map (fun i => f (i + 1)) := by
  rw [List.range_succ_eq_map, List.map_cons, List.map_map]
  rfl

theorem expertNodeNames_succ_head (m : Nat) :
    (expertNodeNames (m + 1)).head? = some (expertNodeName 0) := by
  unfold expertNodeNames
  rw [map_range_succ_head]
  rfl

theorem expertNodeNames_succ_last (m : Nat) :
    (expertNodeNames (m + 1)).getLastD "" = expertNodeName m := by
  unfold expertNodeNames
  rw [List.range_succ, List.map_append]
  exact List.getLastD_concat _ _ _

/-- Closed form of the built edge list for a non-empty expert list. -/
theorem create_expert_group_graph_succ (gname : String) (m : Nat) :
    create_expert_group_graph gname (m + 1)
      = [("__start__", expertNodeName 0)]
        ++ ((List.range m).map (fun i => (expertNodeName i, expertNodeName (i + 1))))
        ++ [(expertNodeName m, gname ++ "_summarizer"),
            (gname ++ "_summarizer", "__end__")] := by
  unfold create_expert_group_graph
  rw [expertNodeNames_succ_head]
  show ([("__start__", expertNodeName 0)]
      ++ ((List.range (m + 1 - 1)).map (fun i => (expertNodeName i, expertNodeName (i + 1))))
      ++ [((expertNodeNames (m + 1)).getLastD "", gname ++ "_summarizer")])
    ++ [(gname ++ "_summarizer", "__end__")] = _
  rw [expertNodeNames_succ_last, Nat.add_sub_cancel]
  simp

/-- Chain decomposition: walking the expert names `f 0 .. f m` and then a
suffix produces the consecutive expert pairs followed by the suffix chain. -/
theorem mid_chain (f : Nat → String) : ∀ (m : Nat) (suffix : List String),
    chainEdges (f 0 :: ((List.range m).map (fun i => f (i + 1)) ++ suffix))
      = ((List.range m).map (fun i => (f i, f (i + 1)))) ++ chainEdges (f m :: suffix) := by
  intro m
  induction m generalizing f with
  | zero => intro suffix; simp
  | succ k ih =>
    intro suffix
    rw [map_range_succ_head (fun i => f (i + 1)) k, map_range_succ_head
      (fun i => (f i, f (i + 1))) k]
    rw [List.cons_append, chainEdges_cons₂]
    rw [ih (fun i => f (i + 1)) suffix]
    simp

/-- Claim C7: `create_expert_group_graph` chains the experts strictly in
their declared order — `START` to the first expert, each expert to the next,
the last expert to the summarizer, the summarizer to `END` — so in every
valid schedule the experts run sequentially in declared order and all before
the summarizer; for an empty expert list, `START` connects directly to the
summarizer. -/
theorem c7_group_chain (gname : String) :
    (create_expert_group_graph gname 0
      = [("__start__", gname ++ "_summarizer"), (gname ++ "_summarizer", "__end__")])
    ∧ (∀ n, create_expert_group_graph gname n = chainEdges (groupGraphNodes gname n))
    ∧ (∀ n sched,
        ValidSchedule (groupGraphNodes gname n) (create_expert_group_graph gname n) sched →
        (∀ i j, i < j → j < n →
          sched.indexOf (expertNodeName i) < sched.indexOf (expertNodeName j))
        ∧ (∀ i, i < n →
          sched.indexOf (expertNodeName i) < sched.indexOf (gname ++ "_summarizer"))) := by
  refine ⟨rfl, ?_, ?_⟩
  · intro n
    cases n with
    | zero => rfl
    | succ m =>
      rw [create_expert_group_graph_succ]
      unfold groupGraphNodes expertNodeNames
      rw [map_range_succ_head expertNodeName m]
      simp only [List.cons_append, List.nil_append, List.append_assoc]
      rw [chainEdges_cons₂]
      rw [mid_chain expertNodeName m [gname ++ "_summarizer", "__end__"]]
      simp [chainEdges]
  · intro n sched hv
    have step : ∀ k, k + 1 < n →
        sched.indexOf (expertNodeName k) < sched.indexOf (expertNodeName (k + 1)) := by
      intro k hk
      cases n with
      | zero => omega
      | succ m =>
        apply hv.2 (expertNodeName k, expertNodeName (k + 1))
        rw [create_expert_group_graph_succ]
        refine List.mem_append_left _ (List.mem_append_right _ ?_)
        exact List.mem_map_of_mem _ (List.mem_range.mpr (by omega))
    have lastEdge : ∀ m, n = m + 1 →
        sched.indexOf (expertNodeName m) < sched.indexOf (gname ++ "_summarizer") := by
      intro m hm
      apply hv.2 (expertNodeName m, gname ++ "_summarizer")
      subst hm
      rw [create_expert_group_graph_succ]
      refine List.mem_append_right _ ?_
      simp
    have expertOrder : ∀ i j, i < j → j < n →
        sched.indexOf (expertNodeName i) < sched.indexOf (expertNodeName j) := by
      intro i j
      induction j with
      | zero => omega
      | succ jm ihj =>
        intro hij hjn
        rcases Nat.lt_succ_iff_lt_or_eq.mp hij with h | h
        · exact lt_trans (ihj h (by omega)) (step jm hjn)
        · subst h
          exact step i hjn
    refine ⟨expertOrder, ?_⟩
    intro i hi
    cases n with
    | zero => omega
    | succ m =>
      rcases Nat.lt_succ_iff_lt_or_eq.mp hi with h | h
      · exact lt_trans (expertOrder i m h (by omega)) (lastEdge m rfl)
      · subst h
        exact lastEdge i rfl

/-- Witness for C7: the declared-order schedule of the five-expert market
group is valid, and the theorem's ordering facts hold on it. -/
theorem c7_group_chain_witness :
    ValidSchedule (groupGraphNodes "market_analysis" 5)
      (create_expert_group_graph "market_analysis" 5)
      (groupGraphNodes "market_analysis" 5)
    ∧ (groupGraphNodes "market_analysis" 5).indexOf (expertNodeName 1)
        < (groupGraphNodes "market_analysis" 5).indexOf (expertNodeName 4)
    ∧ (groupGraphNodes "market_analysis" 5).indexOf (expertNodeName 2)
        < (groupGraphNodes "market_analysis" 5).indexOf ("market_analysis" ++ "_summarizer") := by
  have hv : ValidSchedule (groupGraphNodes "market_analysis" 5)
      (create_expert_group_graph "market_analysis" 5)
      (groupGraphNodes "market_analysis" 5) :=
    ⟨List.Perm.refl _, by decide⟩
  refine ⟨hv, ?_, ?_⟩
  · exact ((c7_group_chain "market_analysis").2.2 5 _ hv).1 1 4 (by decide) (by decide)
  · exact ((c7_group_chain "market_analysis").2.2 5 _ hv).2 2 (by decide)

/-! ## Field shape lemmas for the node updates -/

/-- The five group keys of the state schema. -/
def validGroupKeys : List String :=
  ["group_1", "group_2", "group_3", "group_4", "group_5"]

theorem getGroupU_of_groups_nil {u : Update} (h : u.groups = []) (k : String) :
    getGroupU u k = [] := by
  unfold getGroupU
  rw [h]
  rfl

theorem lookup_eq_none_of_not_mem_keys {α : Type} {d : List (String × α)} {k : String}
    (h : k ∉ keysOf d) : List.lookup k d = none := by
  rw [List.lookup_eq_none_iff]
  intro p hp
  simp only [bne_iff_ne, ne_eq]
  intro he
  exact h (he ▸ List.mem_map_of_mem Prod.fst hp)

theorem applyUpdate_getGroupS (s : RunState) (u : Update) {kj : String}
    (hk : kj ∈ validGroupKeys) :
    getGroupS (applyUpdate s u) kj = dictMerge (getGroupS s kj) (getGroupU u kj) := by
  simp only [validGroupKeys, List.mem_cons, List.not_mem_nil, or_false] at hk
  rcases hk with rfl | rfl | rfl | rfl | rfl <;> rfl

/-- Both return paths of the expert task contribute exactly the singleton
`{group_key: {agent_name: text}}` to the dynamic group field. -/
theorem expert_groups_shape (C : Collab) (e : ExpertCfg) (s : RunState) :
    ∃ t, (expert_analysis C e s).groups = [(e.group_key, [(e.agent_name, t)])] := by
  unfold expert_analysis
  cases hb : expertBody C e s with
  | ok u =>
    obtain ⟨qs, rs, an, rfl⟩ := expertBody_ok_shape hb
    exact ⟨an, rfl⟩
  | error er => exact ⟨"Error in analysis: " ++ er, rfl⟩

/-- The expert task never touches `group_summaries`. -/
theorem expert_gs_nil (C : Collab) (e : ExpertCfg) (s : RunState) :
    (expert_analysis C e s).group_summaries = [] := by
  unfold expert_analysis
  cases hb : expertBody C e s with
  | ok u =>
    obtain ⟨qs, rs, an, rfl⟩ := expertBody_ok_shape hb
    rfl
  | error er => rfl

/-- The group summarizer never touches the group fields. -/
theorem summ_groups_nil (C : Collab) (cfg : GroupCfg) (s : RunState) :
    (summarize_group C cfg s).groups = [] := by
  unfold summarize_group
  cases hb : summBody C cfg s with
  | ok u =>
    obtain ⟨t, rfl⟩ := summBody_ok_shape hb
    rfl
  | error er => rfl

theorem synthBody_ok_shape {C : Collab} {s : RunState} {u : Update}
    (h : synthBody C s = .ok u) :
    ∃ r, u = { final_report := some r } := by
  unfold synthBody at h
  split at h
  · simp at h
  · split at h
    · simp at h
    · split at h
      · simp at h
      · simp only [Except.ok.injEq] at h
        exact ⟨_, h.symm⟩

/-- The final synthesizer writes only `final_report`. -/
theorem final_groups_nil (C : Collab) (s : RunState) :
    (final_synthesizer C s).groups = [] ∧ (final_synthesizer C s).group_summaries = [] := by
  unfold final_synthesizer
  cases hb : synthBody C s with
  | ok u =>
    obtain ⟨r, rfl⟩ := synthBody_ok_shape hb
    exact ⟨rfl, rfl⟩
  | error er => exact ⟨rfl, rfl⟩

/-! ## Group-field evolution under the expert fold -/

theorem expert_step_same (C : Collab) (e : ExpertCfg) (s : RunState) {kj : String}
    (hk : kj ∈ validGroupKeys) (he : e.group_key = kj) :
    ∃ t, getGroupS (applyUpdate s (expert_analysis C e s)) kj
      = dictInsert (getGroupS s kj) e.agent_name t := by
  obtain ⟨t, ht⟩ := expert_groups_shape C e s
  refine ⟨t, ?_⟩
  rw [applyUpdate_getGroupS s _ hk]
  unfold getGroupU
  rw [ht, he]
  simp [dictMerge_single]

theorem expert_step_other (C : Collab) (e : ExpertCfg) (s : RunState) {kj : String}
    (hk : kj ∈ validGroupKeys) (he : e.group_key ≠ kj) :
    getGroupS (applyUpdate s (expert_analysis C e s)) kj = getGroupS s kj := by
  obtain ⟨t, ht⟩ := expert_groups_shape C e s
  rw [applyUpdate_getGroupS s _ hk]
  unfold getGroupU
  rw [ht]
  have hbeq : (kj == e.group_key) = false := beq_eq_false_iff_ne.mpr (Ne.symm he)
  have hnone : List.lookup kj [(e.group_key, [(e.agent_name, t)])] = none := by
    rw [List.lookup_cons, hbeq]
    rfl
  rw [hnone]
  rfl

theorem summ_step_groups (C : Collab) (cfg : GroupCfg) (s : RunState) {kj : String}
    (hk : kj ∈ validGroupKeys) :
    getGroupS (applyUpdate s (summarize_group C cfg s)) kj = getGroupS s kj := by
  rw [applyUpdate_getGroupS s _ hk,
    getGroupU_of_groups_nil (summ_groups_nil C cfg s) kj]
  rfl

theorem foldExperts_keys (C : Collab) {kj : String} (hk : kj ∈ validGroupKeys) :
    ∀ (experts : List ExpertCfg) (s : RunState),
      (∀ e ∈ experts, e.group_key = kj) →
      (experts.map ExpertCfg.agent_name).Nodup →
      (∀ e ∈ experts, e.agent_name ∉ keysOf (getGroupS s kj)) →
      keysOf (getGroupS
          (experts.foldl (fun st e => applyUpdate st (expert_analysis C e st)) s) kj)
        = keysOf (getGroupS s kj) ++ experts.map ExpertCfg.agent_name := by
  intro experts
  induction experts with
  | nil => intro s _ _ _; simp
  | cons e tl ih =>
    intro s hall hnd hfresh
    rw [List.foldl_cons]
    obtain ⟨t, ht⟩ := expert_step_same C e s hk (hall e (List.mem_cons_self e tl))
    have hfresh_e : List.lookup e.agent_name (getGroupS s kj) = none :=
      lookup_eq_none_of_not_mem_keys (hfresh e (List.mem_cons_self e tl))
    have hkeys : keysOf (getGroupS (applyUpdate s (expert_analysis C e s)) kj)
        = keysOf (getGroupS s kj) ++ [e.agent_name] := by
      rw [ht, keysOf_dictInsert_of_fresh _ _ _ hfresh_e]
    have hnd_tl : (tl.map ExpertCfg.agent_name).Nodup := (List.nodup_cons.mp hnd).2
    have hne : ∀ e' ∈ tl, e'.agent_name ≠ e.agent_name := by
      intro e' he' heq
      exact (List.nodup_cons.mp hnd).1 (heq ▸ List.mem_map_of_mem ExpertCfg.agent_name he')
    have hfresh_tl : ∀ e' ∈ tl,
        e'.agent_name ∉ keysOf (getGroupS (applyUpdate s (expert_analysis C e s)) kj) := by
      intro e' he'
      rw [hkeys]
      intro hmem
      rcases List.mem_append.mp hmem with h | h
      · exact hfresh e' (List.mem_cons_of_mem e he') h
      · exact hne e' he' (List.mem_singleton.mp h)
    rw [ih _ (fun e' he' => hall e' (List.mem_cons_of_mem e he')) hnd_tl hfresh_tl, hkeys]
    simp

theorem foldExperts_other (C : Collab) {kj : String} (hk : kj ∈ validGroupKeys) :
    ∀ (experts : List ExpertCfg) (s : RunState),
      (∀ e ∈ experts, e.group_key ≠ kj) →
      getGroupS (experts.foldl (fun st e => applyUpdate st (expert_analysis C e st)) s) kj
        = getGroupS s kj := by
  intro experts
  induction experts with
  | nil => intro s _; rfl
  | cons e tl ih =>
    intro s hall
    rw [List.foldl_cons, ih _ (fun e' he' => hall e' (List.mem_cons_of_mem e he')),
      expert_step_other C e s hk (hall e (List.mem_cons_self e tl))]

theorem runGroup_keys (C : Collab) (experts : List ExpertCfg) (cfg : GroupCfg)
    (s : RunState) {kj : String} (hk : kj ∈ validGroupKeys)
    (hall : ∀ e ∈ experts, e.group_key = kj)
    (hnd : (experts.map ExpertCfg.agent_name).Nodup)
    (h0 : getGroupS s kj = []) :
    keysOf (getGroupS (runGroup C experts cfg s) kj) = experts.map ExpertCfg.agent_name := by
  unfold runGroup
  rw [summ_step_groups C cfg _ hk]
  rw [foldExperts_keys C hk experts s hall hnd (by rw [h0]; intro e _ h; cases h), h0]
  rfl

theorem runGroup_other (C : Collab) (experts : List ExpertCfg) (cfg : GroupCfg)
    (s : RunState) {kj : String} (hk : kj ∈ validGroupKeys)
    (hall : ∀ e ∈ experts, e.group_key ≠ kj) :
    getGroupS (runGroup C experts cfg s) kj = getGroupS s kj := by
  unfold runGroup
  rw [summ_step_groups C cfg _ hk]
  exact foldExperts_other C hk experts s hall

/-! ## Node-level group-field lemmas -/

/-- Which group field a main-graph node owns (writes to). -/
def groupOwner : MainNode → Option String
  | .marketAnalysisGroup => some "group_1"
  | .financialAnalysisGroup => some "group_2"
  | .sectoralAnalysisGroup => some "group_3"
  | .externalFactorsGroup => some "group_4"
  | .strategyGroup => some "group_5"
  | _ => none

theorem applyUpdate_empty (s : RunState) : applyUpdate s {} = s := rfl

theorem nodeSem_preserves (C : Collab) (n : MainNode) (s : RunState) {kj : String}
    (hk : kj ∈ validGroupKeys) (h : groupOwner n ≠ some kj) :
    getGroupS (nodeSem C n s) kj = getGroupS s kj := by
  cases n with
  | initializer =>
    show getGroupS (applyUpdate s (initializerUpdate s)) kj = getGroupS s kj
    rw [applyUpdate_getGroupS s _ hk, getGroupU_of_groups_nil rfl kj]
    rfl
  | marketAnalysisGroup =>
    have hne : "group_1" ≠ kj := fun hEq => h (by rw [← hEq]; rfl)
    have hall : ∀ e ∈ group1Experts, e.group_key = "group_1" := by decide
    exact runGroup_other C _ _ s hk (fun e he => by rw [hall e he]; exact hne)
  | financialAnalysisGroup =>
    have hne : "group_2" ≠ kj := fun hEq => h (by rw [← hEq]; rfl)
    have hall : ∀ e ∈ group2Experts, e.group_key = "group_2" := by decide
    exact runGroup_other C _ _ s hk (fun e he => by rw [hall e he]; exact hne)
  | sectoralAnalysisGroup =>
    have hne : "group_3" ≠ kj := fun hEq => h (by rw [← hEq]; rfl)
    have hall : ∀ e ∈ group3Experts, e.group_key = "group_3" := by decide
    exact runGroup_other C _ _ s hk (fun e he => by rw [hall e he]; exact hne)
  | externalFactorsGroup =>
    have hne : "group_4" ≠ kj := fun hEq => h (by rw [← hEq]; rfl)
    have hall : ∀ e ∈ group4Experts, e.group_key = "group_4" := by decide
    exact runGroup_other C _ _ s hk (fun e he => by rw [hall e he]; exact hne)
  | join => rfl
  | strategyGroup =>
    have hne : "group_5" ≠ kj := fun hEq => h (by rw [← hEq]; rfl)
    have hall : ∀ e ∈ group5Experts, e.group_key = "group_5" := by decide
    exact runGroup_other C _ _ s hk (fun e he => by rw [hall e he]; exact hne)
  | finalSynthesis =>
    show getGroupS (applyUpdate s (final_synthesizer C s)) kj = getGroupS s kj
    rw [applyUpdate_getGroupS s _ hk, getGroupU_of_groups_nil (final_groups_nil C s).1 kj]
    rfl

/-! ## Schedule-level key lemma -/

theorem sched_group_keys (C : Collab) (q : String) (sched : List MainNode)
    (hv : ValidSchedule mainNodes mainEdges sched)
    (kj : String) (g : MainNode) (names : List String)
    (hmem : g ∈ mainNodes)
    (hinit : getGroupS (initState q) kj = [])
    (hsem : ∀ s, getGroupS s kj = [] →
      keysOf (getGroupS (nodeSem C g s) kj) = names)
    (hpres : ∀ n s, n ≠ g → getGroupS (nodeSem C n s) kj = getGroupS s kj) :
    keysOf (getGroupS (runSchedule C sched (initState q)) kj) = names := by
  have hg : g ∈ sched := hv.1.mem_iff.mpr hmem
  have hnd : sched.Nodup := hv.1.nodup_iff.mpr (by decide)
  obtain ⟨l1, l2, rfl⟩ := List.append_of_mem hg
  have hsplit := List.nodup_append.mp hnd
  have hgl1 : g ∉ l1 := fun hin => hsplit.2.2 hin (List.mem_cons_self g l2)
  have hgl2 : g ∉ l2 := (List.nodup_cons.mp hsplit.2.1).1
  have hfold : ∀ (l : List MainNode) (s : RunState), (∀ n ∈ l, n ≠ g) →
      getGroupS (List.foldl (fun st n => nodeSem C n st) s l) kj = getGroupS s kj := by
    intro l
    induction l with
    | nil => intro s _; rfl
    | cons m tl ih =>
      intro s hall
      rw [List.foldl_cons, ih _ (fun n hn => hall n (List.mem_cons_of_mem m hn)),
        hpres m s (hall m (List.mem_cons_self m tl))]
  unfold runSchedule
  rw [List.foldl_append, List.foldl_cons]
  rw [hfold l2 _ (fun n hn heq => hgl2 (heq ▸ hn))]
  exact hsem _ (by rw [hfold l1 _ (fun n hn heq => hgl1 (heq ▸ hn)), hinit])

/-! ## Claim C2: the group key sets after a full run -/

/-- Claim C2: for every question and every valid execution of the main
graph, the output state's five `group_<g>` mappings have as keys exactly the
five expert names assigned to each group at construction time — in
construction order — and the 25 names are globally unique. -/
theorem c2_group_key_sets (C : Collab) (q : String) (sched : List MainNode)
    (hv : ValidSchedule mainNodes mainEdges sched) :
    keysOf (runSchedule C sched (initState q)).group_1
        = group1Experts.map ExpertCfg.agent_name
    ∧ keysOf (runSchedule C sched (initState q)).group_2
        = group2Experts.map ExpertCfg.agent_name
    ∧ keysOf (runSchedule C sched (initState q)).group_3
        = group3Experts.map ExpertCfg.agent_name
    ∧ keysOf (runSchedule C sched (initState q)).group_4
        = group4Experts.map ExpertCfg.agent_name
    ∧ keysOf (runSchedule C sched (initState q)).group_5
        = group5Experts.map ExpertCfg.agent_name
    ∧ allExpertNames.Nodup := by
  refine ⟨?_, ?_, ?_, ?_, ?_, by decide⟩
  · exact sched_group_keys C q sched hv "group_1" .marketAnalysisGroup _ (by decide) rfl
      (fun s h0 => runGroup_keys C group1Experts marketGroupCfg s (by decide)
        (by decide) (by decide) h0)
      (fun n s hn => nodeSem_preserves C n s (by decide)
        (by cases n <;> first | exact absurd rfl hn | decide))
  · exact sched_group_keys C q sched hv "group_2" .financialAnalysisGroup _ (by decide) rfl
      (fun s h0 => runGroup_keys C group2Experts financialGroupCfg s (by decide)
        (by decide) (by decide) h0)
      (fun n s hn => nodeSem_preserves C n s (by decide)
        (by cases n <;> first | exact absurd rfl hn | decide))
  · exact sched_group_keys C q sched hv "group_3" .sectoralAnalysisGroup _ (by decide) rfl
      (fun s h0 => runGroup_keys C group3Experts sectoralGroupCfg s (by decide)
        (by decide) (by decide) h0)
      (fun n s hn => nodeSem_preserves C n s (by decide)
        (by cases n <;> first | exact absurd rfl hn | decide))
  · exact sched_group_keys C q sched hv "group_4" .externalFactorsGroup _ (by decide) rfl
      (fun s h0 => runGroup_keys C group4Experts externalGroupCfg s (by decide)
        (by decide) (by decide) h0)
      (fun n s hn => nodeSem_preserves C n s (by decide)
        (by cases n <;> first | exact absurd rfl hn | decide))
  · exact sched_group_keys C q sched hv "group_5" .strategyGroup _ (by decide) rfl
      (fun s h0 => runGroup_keys C group5Experts strategyGroupCfg s (by decide)
        (by decide) (by decide) h0)
      (fun n s hn => nodeSem_preserves C n s (by decide)
        (by cases n <;> first | exact absurd rfl hn | decide))

/-! ## Group-summary evolution (for C3) -/

theorem applyUpdate_gs (s : RunState) (u : Update) :
    (applyUpdate s u).group_summaries
      = dictMerge s.group_summaries u.group_summaries := rfl

theorem foldExperts_gs (C : Collab) : ∀ (experts : List ExpertCfg) (s : RunState),
    (experts.foldl (fun st e => applyUpdate st (expert_analysis C e st)) s).group_summaries
      = s.group_summaries := by
  intro experts
  induction experts with
  | nil => intro s; rfl
  | cons e tl ih =>
    intro s
    rw [List.foldl_cons, ih, applyUpdate_gs, expert_gs_nil]
    rfl

/-- Every group task deposits its display name into `group_summaries`. -/
theorem runGroup_adds (C : Collab) (experts : List ExpertCfg) (cfg : GroupCfg)
    (s : RunState) :
    cfg.group_name ∈ keysOf (runGroup C experts cfg s).group_summaries := by
  unfold runGroup
  obtain ⟨t, ht⟩ := summ_entry_exists C cfg
    (List.foldl (fun st e => applyUpdate st (expert_analysis C e st)) s experts)
  rw [applyUpdate_gs, ht, dictMerge_single]
  exact self_mem_keysOf_dictInsert _ _ _

/-- No main-graph node ever removes a `group_summaries` key. -/
theorem nodeSem_gs_mono (C : Collab) (n : MainNode) (s : RunState) {a : String}
    (h : a ∈ keysOf s.group_summaries) :
    a ∈ keysOf (nodeSem C n s).group_summaries := by
  cases n with
  | initializer => exact h
  | join => exact h
  | finalSynthesis =>
    show a ∈ keysOf (dictMerge s.group_summaries (final_synthesizer C s).group_summaries)
    rw [(final_groups_nil C s).2]
    exact h
  | marketAnalysisGroup =>
    show a ∈ keysOf (runGroup C group1Experts marketGroupCfg s).group_summaries
    unfold runGroup
    rw [applyUpdate_gs, foldExperts_gs]
    exact mem_keysOf_dictMerge _ _ h
  | financialAnalysisGroup =>
    show a ∈ keysOf (runGroup C group2Experts financialGroupCfg s).group_summaries
    unfold runGroup
    rw [applyUpdate_gs, foldExperts_gs]
    exact mem_keysOf_dictMerge _ _ h
  | sectoralAnalysisGroup =>
    show a ∈ keysOf (runGroup C group3Experts sectoralGroupCfg s).group_summaries
    unfold runGroup
    rw [applyUpdate_gs, foldExperts_gs]
    exact mem_keysOf_dictMerge _ _ h
  | externalFactorsGroup =>
    show a ∈ keysOf (runGroup C group4Experts externalGroupCfg s).group_summaries
    unfold runGroup
    rw [applyUpdate_gs, foldExperts_gs]
    exact mem_keysOf_dictMerge _ _ h
  | strategyGroup =>
    show a ∈ keysOf (runGroup C group5Experts strategyGroupCfg s).group_summaries
    unfold runGroup
    rw [applyUpdate_gs, foldExperts_gs]
    exact mem_keysOf_dictMerge _ _ h

theorem fold_gs_mono (C : Collab) : ∀ (l : List MainNode) (s : RunState) {a : String},
    a ∈ keysOf s.group_summaries →
    a ∈ keysOf (List.foldl (fun st n => nodeSem C n st) s l).group_summaries := by
  intro l
  induction l with
  | nil => intro s a h; exact h
  | cons m tl ih =>
    intro s a h
    rw [List.foldl_cons]
    exact ih _ (nodeSem_gs_mono C m s h)

theorem fold_contains (C : Collab) (dn : String) (g : MainNode)
    (hadd : ∀ s, dn ∈ keysOf (nodeSem C g s).group_summaries) :
    ∀ (l : List MainNode) (s : RunState), g ∈ l →
      dn ∈ keysOf (List.foldl (fun st n => nodeSem C n st) s l).group_summaries := by
  intro l
  induction l with
  | nil => intro s h; cases h
  | cons m tl ih =>
    intro s hm
    rw [List.foldl_cons]
    rcases List.mem_cons.mp hm with rfl | h
    · exact fold_gs_mono C tl _ (hadd s)
    · exact ih _ h

/-! ## Schedule index plumbing -/

theorem indexOf_eq_of_getElem {sched : List MainNode} (hnd : sched.Nodup)
    {a : MainNode} {i : Nat} (hi : i < sched.length) (h : sched.get ⟨i, hi⟩ = a) :
    sched.indexOf a = i := by
  have hmem : a ∈ sched := h ▸ List.get_mem sched i hi
  have hlt : sched.indexOf a < sched.length := List.indexOf_lt_length.mpr hmem
  have h2 : sched.get ⟨sched.indexOf a, hlt⟩ = sched.get ⟨i, hi⟩ := by
    rw [List.indexOf_get hlt, h]
  have h3 := (hnd.get_inj_iff).mp h2
  exact congrArg Fin.val h3

theorem mem_take_of_indexOf_lt {a : MainNode} {sched : List MainNode} {i : Nat}
    (hmem : a ∈ sched) (hlt : sched.indexOf a < i) : a ∈ sched.take i := by
  have h1 : sched.get? (sched.indexOf a) = some a := List.indexOf_get? hmem
  have h2 : (sched.take i).get? (sched.indexOf a) = some a := by
    rw [List.get?_eq_getElem?, List.getElem?_take_of_lt hlt, ← List.get?_eq_getElem?]
    exact h1
  exact List.get?_mem h2

/-- The state a group task has deposited is visible whenever the strategy
task starts (its display name is among the summary keys of the prefix
state). -/
theorem strategy_sees (C : Collab) (q : String) (sched : List MainNode)
    (hv : ValidSchedule mainNodes mainEdges sched)
    (g : MainNode) (dn : String)
    (hgmem : g ∈ mainNodes)
    (hedge : (g, MainNode.join) ∈ mainEdges)
    (hadd : ∀ s, dn ∈ keysOf (nodeSem C g s).group_summaries) :
    ∀ i (hi : i < sched.length), sched.get ⟨i, hi⟩ = MainNode.strategyGroup →
      dn ∈ keysOf (runSchedule C (sched.take i) (initState q)).group_summaries := by
  intro i hi hget
  have hnd : sched.Nodup := hv.1.nodup_iff.mpr (by decide)
  have hstrat : sched.indexOf MainNode.strategyGroup = i := indexOf_eq_of_getElem hnd hi hget
  have h1 : sched.indexOf g < sched.indexOf MainNode.join := hv.2 (g, MainNode.join) hedge
  have h2 : sched.indexOf MainNode.join < sched.indexOf MainNode.strategyGroup :=
    hv.2 (MainNode.join, MainNode.strategyGroup) (by decide)
  have hgmem' : g ∈ sched := hv.1.mem_iff.mpr hgmem
  have htake : g ∈ sched.take i := mem_take_of_indexOf_lt hgmem' (by omega)
  exact fold_contains C dn g hadd (sched.take i) (initState q) htake

/-! ## Claim C3: the join barrier -/

/-- Claim C3: in every valid execution of the main graph, each of the four
non-strategy group tasks fires before the join node and the join node fires
before the strategy task; the join node returns an empty update and leaves
the state unchanged; hence at the point the strategy task starts, the
run-state's `group_summaries` already contains all four non-strategy
display names. -/
theorem c3_join_barrier (C : Collab) (q : String) (sched : List MainNode)
    (hv : ValidSchedule mainNodes mainEdges sched) :
    (∀ s, join_node s = ({} : Update) ∧ applyUpdate s (join_node s) = s)
    ∧ (sched.indexOf MainNode.marketAnalysisGroup < sched.indexOf MainNode.join
       ∧ sched.indexOf MainNode.financialAnalysisGroup < sched.indexOf MainNode.join
       ∧ sched.indexOf MainNode.sectoralAnalysisGroup < sched.indexOf MainNode.join
       ∧ sched.indexOf MainNode.externalFactorsGroup < sched.indexOf MainNode.join)
    ∧ sched.indexOf MainNode.join < sched.indexOf MainNode.strategyGroup
    ∧ (∀ i (hi : i < sched.length), sched.get ⟨i, hi⟩ = MainNode.strategyGroup →
        marketGroupCfg.group_name
          ∈ keysOf (runSchedule C (sched.take i) (initState q)).group_summaries
        ∧ financialGroupCfg.group_name
          ∈ keysOf (runSchedule C (sched.take i) (initState q)).group_summaries
        ∧ sectoralGroupCfg.group_name
          ∈ keysOf (runSchedule C (sched.take i) (initState q)).group_summaries
        ∧ externalGroupCfg.group_name
          ∈ keysOf (runSchedule C (sched.take i) (initState q)).group_summaries) := by
  refine ⟨fun s => ⟨rfl, rfl⟩,
    ⟨hv.2 (MainNode.marketAnalysisGroup, MainNode.join) (by decide),
     hv.2 (MainNode.financialAnalysisGroup, MainNode.join) (by decide),
     hv.2 (MainNode.sectoralAnalysisGroup, MainNode.join) (by decide),
     hv.2 (MainNode.externalFactorsGroup, MainNode.join) (by decide)⟩,
    hv.2 (MainNode.join, MainNode.strategyGroup) (by decide), ?_⟩
  intro i hi hget
  exact ⟨strategy_sees C q sched hv MainNode.marketAnalysisGroup _ (by decide) (by decide)
      (fun s => runGroup_adds C group1Experts marketGroupCfg s) i hi hget,
    strategy_sees C q sched hv MainNode.financialAnalysisGroup _ (by decide) (by decide)
      (fun s => runGroup_adds C group2Experts financialGroupCfg s) i hi hget,
    strategy_sees C q sched hv MainNode.sectoralAnalysisGroup _ (by decide) (by decide)
      (fun s => runGroup_adds C group3Experts sectoralGroupCfg s) i hi hget,
    strategy_sees C q sched hv MainNode.externalFactorsGroup _ (by decide) (by decide)
      (fun s => runGroup_adds C group4Experts externalGroupCfg s) i hi hget⟩

/-! ## Witnesses for C2 and C3 -/

/-- A collaborator whose calls all succeed trivially. -/
def trivialCollab : Collab :=
  { getModel := .ok (), llm := fun _ => .ok "text", search := fun _ => .ok [],
    loads := fun _ => none, saveExpert := fun _ _ _ => .ok (),
    saveSummary := fun _ _ _ => .ok (), saveFinal := fun _ _ => .ok () }

/-- The declaration-order schedule of the main graph is valid. -/
theorem mainNodes_valid : ValidSchedule mainNodes mainEdges mainNodes :=
  ⟨List.Perm.refl _, by decide⟩

/-- Witness for C2 at the declaration-order schedule with the trivial
collaborator. -/
theorem c2_group_key_sets_witness :
    ValidSchedule mainNodes mainEdges mainNodes
    ∧ keysOf (runSchedule trivialCollab mainNodes (initState "q")).group_1
        = group1Experts.map ExpertCfg.agent_name
    ∧ keysOf (runSchedule trivialCollab mainNodes (initState "q")).group_5
        = group5Experts.map ExpertCfg.agent_name
    ∧ allExpertNames.Nodup :=
  ⟨mainNodes_valid,
    (c2_group_key_sets trivialCollab "q" mainNodes mainNodes_valid).1,
    (c2_group_key_sets trivialCollab "q" mainNodes mainNodes_valid).2.2.2.2.1,
    (c2_group_key_sets trivialCollab "q" mainNodes mainNodes_valid).2.2.2.2.2⟩

/-- Witness for C3 at the declaration-order schedule: the strategy task
fires at position 6 and sees all four summaries. -/
theorem c3_join_barrier_witness :
    ValidSchedule mainNodes mainEdges mainNodes
    ∧ (mainNodes.get ⟨6, by decide⟩ = MainNode.strategyGroup)
    ∧ marketGroupCfg.group_name
        ∈ keysOf (runSchedule trivialCollab (mainNodes.take 6) (initState "q")).group_summaries
    ∧ externalGroupCfg.group_name
        ∈ keysOf (runSchedule trivialCollab (mainNodes.take 6) (initState "q")).group_summaries :=
  ⟨mainNodes_valid, by decide,
    ((c3_join_barrier trivialCollab "q" mainNodes mainNodes_valid).2.2.2 6 (by decide)
      (by decide)).1,
    ((c3_join_barrier trivialCollab "q" mainNodes mainNodes_valid).2.2.2 6 (by decide)
      (by decide)).2.2.2⟩

end MultiFinX
